import Mathlib

/-!
Shallow embedding of `src/collect.py` (tuchandra/chiscooter).

The script polls GBFS endpoints, detects fresh payloads through the
`last_updated` marker, and writes each fresh snapshot to a JSON file keyed
by date, stream name and marker.  The embedding below renders the loop body
of `stream_data` (lines 78-96), the dataclass `StreamParams` with its
`__post_init__` (lines 19-29), and `write_to_file` (lines 32-56) as pure
Lean functions.  Effects are made explicit: the fetched payload and the
success of the file write become parameters of the step function, and the
data directory becomes an explicit store value threaded through writes.
-/

/-- A fetched JSON payload, the result of `requests.get(url).json()`: a
Python dict.  The polling logic only ever reads and writes integer-valued
fields (`last_updated`, `lastUpdated`), so the dict is modelled as an
association list from string keys to integers; the first binding of a key
is its value, and Python dicts never hold duplicate keys. -/
structure Payload where
  entries : List (String × Int)
deriving DecidableEq

/-- Python dict read access `data[k]`, returning `none` when the key is
missing (in Python a missing key raises `KeyError`). -/
def Payload.get? (d : Payload) (k : String) : Option Int :=
  (d.entries.find? (fun kv => kv.1 = k)).map (fun kv => kv.2)

/-- Update of an association list: replace the first binding of the key when
one is present, append a new binding otherwise.  This is the update
semantics shared by Python dict assignment and by rewriting the file at an
already existing path. -/
def upsert {α β : Type} [DecidableEq α] : List (α × β) → α → β → List (α × β)
  | [], k, v => [(k, v)]
  | kv :: rest, k, v => if kv.1 = k then (k, v) :: rest else kv :: upsert rest k v

/-- Python dict assignment `data[k] = v`. -/
def Payload.set (d : Payload) (k : String) (v : Int) : Payload :=
  ⟨upsert d.entries k v⟩

/-- Lines 82-83 of `stream_data`: whenever the alternate key `lastUpdated`
is present (the VeoRide edge case), its value is copied into the canonical
`last_updated` field, unconditionally overwriting any existing value there.
Checking `data.get? "lastUpdated"` for `some` matches the source's
membership test on `data.keys()` followed by the read. -/
def Payload.normalize (data : Payload) : Payload :=
  match data.get? "lastUpdated" with
  | some v => data.set "last_updated" v
  | none => data

/-- Marker extraction as performed inline at lines 82-85 of `stream_data`:
normalization followed by the read `data["last_updated"]`.  A `none` result
models the `KeyError` the read raises when the field is still missing. -/
def extract_marker (data : Payload) : Option Int :=
  (Payload.normalize data).get? "last_updated"

/-- The freshness check at line 85: `data["last_updated"] > last_updated`,
a strict comparison of the payload marker against the last-seen marker. -/
def is_new (payload_marker last_marker : Int) : Bool :=
  payload_marker > last_marker

/-- Errors a poll iteration can raise: the `KeyError` from reading a missing
`last_updated` field (line 85), or an I/O error raised by `write_to_file`
(line 89).  Neither is caught inside `stream_data`, so both propagate out of
the poller coroutine. -/
inductive PollError where
  | keyError
  | persistError
deriving DecidableEq

/-- Observable outcome of one iteration of the polling loop body:
the value of the local `last_updated` marker when the iteration ends (or
when its error is raised), the snapshots successfully written during the
iteration as (marker, body) pairs, the argument passed to `asyncio.sleep`
(`none` when the iteration raised before reaching a sleep), and the raised
error if any. -/
structure StepOutcome where
  last : Int
  persisted : List (Int × Payload)
  sleepArg : Option ℚ
  error : Option PollError
deriving DecidableEq

/-- One iteration of the polling loop body of `stream_data` (lines 80-96)
for one stream.  `data` is the payload the fetch returned and `persistOk`
abstracts whether `write_to_file` succeeds or raises an I/O error.
Faithful to the source's line order: on fresh data the marker variable is
reassigned at line 86 before `write_to_file` runs at line 89, so a failing
write still leaves the reassigned marker behind; the sleep argument is
`cooldown - 1` (line 92) after a successful write and `0.5` (line 96) when
the payload is not fresh. -/
def pollStep (cooldown last : Int) (data : Payload) (persistOk : Bool) : StepOutcome :=
  match extract_marker data with
  | none => ⟨last, [], none, some .keyError⟩
  | some m =>
    if is_new m last then
      if persistOk then
        ⟨m, [(m, Payload.normalize data)], some ((cooldown : ℚ) - 1), none⟩
      else
        ⟨m, [], none, some .persistError⟩
    else
      ⟨last, [], some (1 / 2 : ℚ), none⟩

/-- Time actually slept by `asyncio.sleep(arg)`: a non-positive delay yields
control and returns immediately, so the time slept is `max arg 0`. -/
def sleepDuration (arg : ℚ) : ℚ := max arg 0

/-- Iterated loop body: process a sequence of fetched payloads starting from
marker state `last`, every file write succeeding.  Returns the snapshots
written, in order, together with the final marker state. -/
def processPolls (cooldown last : Int) : List Payload → List (Int × Payload) × Int
  | [] => ([], last)
  | d :: ds =>
    let o := pollStep cooldown last d true
    let r := processPolls cooldown o.last ds
    (o.persisted ++ r.1, r.2)

/-- The `StreamParams` dataclass (lines 19-23): name, URL and cooldown of
one stream. -/
structure StreamParams where
  name : String
  url : String
  cooldown : Int
deriving DecidableEq

/-- Dataclass construction including `__post_init__` (lines 25-29): a
cooldown of exactly zero is replaced by 15.  No other validation happens;
any other value, negative values included, is stored unchanged. -/
def StreamParams.make (name url : String) (cooldown : Int) : StreamParams :=
  ⟨name, url, if cooldown = 0 then 15 else cooldown⟩

/-- The on-disk data directory: a map from the path components
`(date, stream name, marker)` — the file `data/<date>/<stream>/<marker>.json`
— to the payload stored in that file. -/
structure Store where
  files : List ((String × String × Int) × Payload)
deriving DecidableEq

/-- Contents of the file at a path, `none` when no such file exists. -/
def Store.read? (s : Store) (key : String × String × Int) : Option Payload :=
  (s.files.find? (fun e => e.1 = key)).map (fun e => e.2)

/-- Lines 50-56: `write_to_file` builds the path from today's date, the
stream name and the marker, creates missing directories, and opens the file
with mode `"w"` — which truncates and rewrites, so any existing file at the
same path is replaced by the new contents.  `today` stands for the value of
`datetime.now().strftime("%Y%m%d")` at the time of the call. -/
def write_to_file (s : Store) (data : Payload) (stream_name : String)
    (last_updated : Int) (today : String) : Store :=
  ⟨upsert s.files (today, stream_name, last_updated) data⟩

/-! ### Basic lemmas about the embedded operations -/

theorem find?_upsert_self {α β : Type} [DecidableEq α] (l : List (α × β)) (k : α) (v : β) :
    List.find? (fun kv => kv.1 = k) (upsert l k v) = some (k, v) := by
  induction l with
  | nil => simp [upsert, List.find?]
  | cons kv rest ih =>
    by_cases h : kv.1 = k
    · simp [upsert, h, List.find?]
    · simp [upsert, h, List.find?, ih]

theorem upsert_upsert_self {α β : Type} [DecidableEq α] (l : List (α × β)) (k : α) (v w : β) :
    upsert (upsert l k v) k w = upsert l k w := by
  induction l with
  | nil => simp [upsert]
  | cons kv rest ih =>
    by_cases h : kv.1 = k
    · simp [upsert, h]
    · simp [upsert, h, ih]

theorem Payload.get?_set_self (d : Payload) (k : String) (v : Int) :
    (d.set k v).get? k = some v := by
  simp [Payload.set, Payload.get?, find?_upsert_self]

theorem extract_marker_of_alt (d : Payload) (v : Int)
    (ha : d.get? "lastUpdated" = some v) : extract_marker d = some v := by
  unfold extract_marker Payload.normalize
  rw [ha]
  exact Payload.get?_set_self d "last_updated" v

theorem normalize_of_no_alt (d : Payload) (ha : d.get? "lastUpdated" = none) :
    Payload.normalize d = d := by
  unfold Payload.normalize
  rw [ha]

theorem pollStep_keyError (c last : Int) (d : Payload) (p : Bool)
    (hx : extract_marker d = none) :
    pollStep c last d p = ⟨last, [], none, some PollError.keyError⟩ := by
  simp [pollStep, hx]

theorem pollStep_stale (c last : Int) (d : Payload) (p : Bool) (m : Int)
    (hm : extract_marker d = some m) (hle : m ≤ last) :
    pollStep c last d p = ⟨last, [], some (1 / 2 : ℚ), none⟩ := by
  have hb : is_new m last = false := by
    simp only [is_new, decide_eq_false_iff_not]
    omega
  simp [pollStep, hm, hb]

theorem pollStep_fresh_ok (c last : Int) (d : Payload) (m : Int)
    (hm : extract_marker d = some m) (hnew : last < m) :
    pollStep c last d true = ⟨m, [(m, Payload.normalize d)], some ((c : ℚ) - 1), none⟩ := by
  have hb : is_new m last = true := by
    simp only [is_new, decide_eq_true_eq]
    omega
  simp [pollStep, hm, hb]

theorem pollStep_fresh_fail (c last : Int) (d : Payload) (m : Int)
    (hm : extract_marker d = some m) (hnew : last < m) :
    pollStep c last d false = ⟨m, [], none, some PollError.persistError⟩ := by
  have hb : is_new m last = true := by
    simp only [is_new, decide_eq_true_eq]
    omega
  simp [pollStep, hm, hb]

theorem pollStep_last_mono (c last : Int) (d : Payload) (p : Bool) :
    last ≤ (pollStep c last d p).last := by
  rcases hx : extract_marker d with _ | m
  · simp [pollStep_keyError c last d p hx]
  · rcases le_or_lt m last with hle | hlt
    · simp [pollStep_stale c last d p m hx hle]
    · cases p
      · simp [pollStep_fresh_fail c last d m hx hlt]
        omega
      · simp [pollStep_fresh_ok c last d m hx hlt]
        omega

theorem processPolls_chain (c : Int) (ds : List Payload) :
    ∀ (ms : List Int) (last : Int),
      ds.map extract_marker = ms.map some →
      List.Chain (· < ·) last ms →
      (processPolls c last ds).1.map Prod.fst = ms ∧
      (processPolls c last ds).2 = ms.getLastD last := by
  induction ds with
  | nil =>
    intro ms last hm hc
    cases ms with
    | nil => simp [processPolls]
    | cons m ms => simp at hm
  | cons d ds ih =>
    intro ms last hm hc
    cases ms with
    | nil => simp at hm
    | cons m ms =>
      simp only [List.map_cons, List.cons.injEq] at hm
      obtain ⟨hd, hrest⟩ := hm
      rw [List.chain_cons] at hc
      obtain ⟨hlt, hchain⟩ := hc
      have hstep := pollStep_fresh_ok c last d m hd hlt
      have ihm := ih ms m hrest hchain
      simp only [processPolls, hstep]
      rw [List.getLastD_cons]
      exact ⟨by simp [ihm.1], ihm.2⟩

/-! ### Claim theorems -/

/-- C1 counterexample: the claim as stated fails for the strictly increasing
marker sequence 0, 1 delivered from the initial state `last_marker = 0`.
The first payload's marker 0 is not strictly greater than the sentinel 0, so
only one snapshot is persisted instead of the predicted two. -/
theorem C1_counterexample :
    (processPolls 60 0 [⟨[("last_updated", 0)]⟩, ⟨[("last_updated", 1)]⟩]).1.length = 1 ∧
    (1 : Nat) ≠ 2 := by decide

/-- C1 (amended): for every sequence of fetched payloads whose markers are
strictly increasing and all exceed the initial sentinel 0, processing from
`last_marker = 0` persists exactly the k markers of the sequence, in
strictly increasing order, and the final marker state is the last marker of
the sequence; moreover every single poll iteration, of any kind, leaves the
marker state greater than or equal to what it was. -/
theorem C1_increasing_markers_all_persisted (c : Int) (ds : List Payload) (ms : List Int)
    (c2 last2 : Int) (d2 : Payload) (p2 : Bool)
    (hm : ds.map extract_marker = ms.map some)
    (hchain : List.Chain (· < ·) 0 ms) :
    ((processPolls c 0 ds).1.map Prod.fst = ms ∧
      List.Chain' (· < ·) ((processPolls c 0 ds).1.map Prod.fst) ∧
      (processPolls c 0 ds).2 = ms.getLastD 0) ∧
    last2 ≤ (pollStep c2 last2 d2 p2).last := by
  have h := processPolls_chain c ds ms 0 hm hchain
  refine ⟨⟨h.1, ?_, h.2⟩, pollStep_last_mono c2 last2 d2 p2⟩
  rw [h.1]
  exact List.Chain'.tail (show List.Chain' (· < ·) (0 :: ms) from hchain)

theorem C1_witness :
    ((processPolls 60 0 [⟨[("last_updated", 1)]⟩, ⟨[("last_updated", 3)]⟩]).1.map Prod.fst
        = [1, 3] ∧
      List.Chain' (· < ·)
        ((processPolls 60 0 [⟨[("last_updated", 1)]⟩, ⟨[("last_updated", 3)]⟩]).1.map Prod.fst) ∧
      (processPolls 60 0 [⟨[("last_updated", 1)]⟩, ⟨[("last_updated", 3)]⟩]).2
        = [1, 3].getLastD 0) ∧
    (0 : Int) ≤ (pollStep 60 0 ⟨[("last_updated", 1)]⟩ true).last :=
  C1_increasing_markers_all_persisted 60
    [⟨[("last_updated", 1)]⟩, ⟨[("last_updated", 3)]⟩] [1, 3]
    60 0 ⟨[("last_updated", 1)]⟩ true (by decide)
    (List.Chain.cons (by decide) (List.Chain.cons (by decide) List.Chain.nil))

/-- C2: for every payload marker and every last-seen value, the freshness
check used at line 85 treats the payload as new exactly when the marker
strictly exceeds the last-seen marker; and a poll iteration whose payload
marker is less than or equal to `last_marker` performs no persist call,
leaves the marker unchanged, raises nothing, and goes to the short 0.5
sleep. -/
theorem C2_stale_no_persist (c last m pm lm : Int) (d : Payload) (p : Bool)
    (hm : extract_marker d = some m) (hle : m ≤ last) :
    (is_new pm lm = true ↔ pm > lm) ∧
    pollStep c last d p = ⟨last, [], some (1 / 2 : ℚ), none⟩ := by
  refine ⟨by simp [is_new], pollStep_stale c last d p m hm hle⟩

theorem C2_witness :
    (is_new 7 3 = true ↔ (7 : Int) > 3) ∧
    pollStep 60 5 ⟨[("last_updated", 5)]⟩ true = ⟨5, [], some (1 / 2 : ℚ), none⟩ :=
  C2_stale_no_persist 60 5 5 7 3 ⟨[("last_updated", 5)]⟩ true rfl (by decide)

/-- C3 counterexample: starting from `last_marker = 0` with a fresh payload
of marker 5, a failing persist still leaves `last_marker = 5`: the source
reassigns the marker at line 86 before `write_to_file` runs at line 89, so
the claim that a persist failure leaves the marker unchanged is false. -/
theorem C3_counterexample :
    (pollStep 60 0 ⟨[("last_updated", 5)]⟩ false).error = some PollError.persistError ∧
    (pollStep 60 0 ⟨[("last_updated", 5)]⟩ false).last = 5 ∧ (5 : Int) ≠ 0 := by decide

/-- C3 (amended): when a fresh payload's persist step fails, the poll
iteration raises the persist error, writes no snapshot, and has already
updated `last_marker` to the new payload marker: the update at line 86
precedes the write at line 89, so the marker update is not contingent on
persist success. -/
theorem C3_persist_failure_marker_already_updated (c last m : Int) (d : Payload)
    (hm : extract_marker d = some m) (hnew : last < m) :
    pollStep c last d false = ⟨m, [], none, some PollError.persistError⟩ :=
  pollStep_fresh_fail c last d m hm hnew

theorem C3_witness :
    pollStep 60 0 ⟨[("last_updated", 7)]⟩ false = ⟨7, [], none, some PollError.persistError⟩ :=
  C3_persist_failure_marker_already_updated 60 0 7 ⟨[("last_updated", 7)]⟩ rfl (by decide)

/-- C4 counterexample: writing twice to the same (date, stream, marker) key
with different payload bodies replaces the first record with the second —
`open(path, "w")` truncates and rewrites — so the stored snapshot for the
key is overwritten, contradicting the claim that an existing record is
never replaced. -/
theorem C4_counterexample :
    Store.read?
      (write_to_file
        (write_to_file ⟨[]⟩ ⟨[("last_updated", 42)]⟩ "gamma" 42 "20191001")
        ⟨[("last_updated", 42), ("num_bikes", 7)]⟩ "gamma" 42 "20191001")
      ("20191001", "gamma", 42) = some ⟨[("last_updated", 42), ("num_bikes", 7)]⟩ ∧
    some (⟨[("last_updated", 42), ("num_bikes", 7)]⟩ : Payload)
      ≠ some (⟨[("last_updated", 42)]⟩ : Payload) := by decide

/-- C4 (amended): `write_to_file` unconditionally overwrites the record at
the (date, stream name, marker) key: after a second write for the same key
the store holds the second payload; when the second write carries the same
payload as the first — the spec's crash-restart re-delivery scenario — the
overwrite is idempotent and the store is left exactly as after the first
write. -/
theorem C4_write_overwrites_idempotent_on_equal (s : Store) (d d2 : Payload)
    (n t : String) (m : Int) :
    Store.read? (write_to_file (write_to_file s d n m t) d2 n m t) (t, n, m) = some d2 ∧
    write_to_file (write_to_file s d n m t) d n m t = write_to_file s d n m t := by
  constructor
  · simp [write_to_file, Store.read?, upsert_upsert_self, find?_upsert_self]
  · simp [write_to_file, upsert_upsert_self]

/-- C5: a payload whose canonical `last_updated` field is absent but whose
alternate `lastUpdated` key holds v is normalized so that marker extraction
returns v, the same result as for a payload carrying the canonical key
directly with that value. -/
theorem C5_alternate_key_normalized (d : Payload) (v : Int)
    (_hc : d.get? "last_updated" = none) (ha : d.get? "lastUpdated" = some v) :
    extract_marker d = some v ∧
    extract_marker d = extract_marker ⟨[("last_updated", v)]⟩ := by
  have h1 : extract_marker d = some v := extract_marker_of_alt d v ha
  exact ⟨h1, h1.trans (rfl : extract_marker ⟨[("last_updated", v)]⟩ = some v).symm⟩

theorem C5_witness :
    extract_marker ⟨[("lastUpdated", 99)]⟩ = some 99 ∧
    extract_marker ⟨[("lastUpdated", 99)]⟩ = extract_marker ⟨[("last_updated", 99)]⟩ :=
  C5_alternate_key_normalized ⟨[("lastUpdated", 99)]⟩ 99 rfl rfl

/-- C6: a payload missing both the canonical `last_updated` key and the
alternate `lastUpdated` key makes the poll iteration raise the key error:
no snapshot is written, the marker is unchanged, no sleep is reached, and
the error propagates out of the poller's loop body. -/
theorem C6_missing_marker_propagates (c last : Int) (d : Payload) (p : Bool)
    (hc : d.get? "last_updated" = none) (ha : d.get? "lastUpdated" = none) :
    pollStep c last d p = ⟨last, [], none, some PollError.keyError⟩ := by
  have hx : extract_marker d = none := by
    unfold extract_marker
    rw [normalize_of_no_alt d ha]
    exact hc
  exact pollStep_keyError c last d p hx

theorem C6_witness :
    pollStep 60 0 ⟨[]⟩ true = ⟨0, [], none, some PollError.keyError⟩ :=
  C6_missing_marker_propagates 60 0 ⟨[]⟩ true rfl rfl

theorem pollStep_sleepArg_cases (c last : Int) (d : Payload) (p : Bool) (q : ℚ)
    (hq : (pollStep c last d p).sleepArg = some q) :
    q = (c : ℚ) - 1 ∨ q = 1 / 2 := by
  rcases hx : extract_marker d with _ | m
  · rw [pollStep_keyError c last d p hx] at hq
    simp at hq
  · rcases le_or_lt m last with hle | hlt
    · rw [pollStep_stale c last d p m hx hle] at hq
      exact Or.inr (Option.some_injective ℚ hq).symm
    · cases p
      · rw [pollStep_fresh_fail c last d m hx hlt] at hq
        simp at hq
      · rw [pollStep_fresh_ok c last d m hx hlt] at hq
        exact Or.inl (Option.some_injective ℚ hq).symm

theorem make_cooldown_ne_zero (n u : String) (c : Int) :
    (StreamParams.make n u c).cooldown ≠ 0 := by
  by_cases h : c = 0 <;> simp [StreamParams.make, h]

/-- C7: a stream configuration constructed with cooldown exactly 0 carries
cooldown 15 immediately after construction; every sleep a poll iteration of
such a stream reaches has a nonzero actual duration (14 or 0.5); and no
constructed configuration ever carries cooldown 0 at all, so 0 is never the
cooldown a sleep is computed from. -/
theorem C7_zero_cooldown_normalized (n u : String) (last c2 : Int) (d : Payload)
    (p : Bool) (q : ℚ)
    (hq : (pollStep (StreamParams.make n u 0).cooldown last d p).sleepArg = some q) :
    (StreamParams.make n u 0).cooldown = 15 ∧ sleepDuration q ≠ 0 ∧
      (StreamParams.make n u c2).cooldown ≠ 0 := by
  have h15 : (StreamParams.make n u 0).cooldown = 15 := rfl
  rw [h15] at hq
  refine ⟨h15, ?_, make_cooldown_ne_zero n u c2⟩
  rcases pollStep_sleepArg_cases 15 last d p q hq with h | h <;> rw [h] <;>
    norm_num [sleepDuration]

theorem C7_witness :
    (StreamParams.make "lime" "url" 0).cooldown = 15 ∧
    sleepDuration ((15 : ℚ) - 1) ≠ 0 ∧
    (StreamParams.make "lime" "url" 300).cooldown ≠ 0 :=
  C7_zero_cooldown_normalized "lime" "url" 0 300 ⟨[("last_updated", 1)]⟩ true
    ((15 : ℚ) - 1) rfl

/-- C8: in a poll iteration with a successfully extracted marker and a
succeeding persist path, the actual time slept is exactly
`max (cooldown - 1) 0` when the payload is judged new (the argument passed
to the sleep is `cooldown - 1`, and a non-positive delay sleeps for zero
time) and exactly 0.5 when it is judged not new; no other sleep duration
occurs. -/
theorem C8_dual_sleep_policy (c last m : Int) (d : Payload)
    (hm : extract_marker d = some m) :
    (pollStep c last d true).sleepArg.map sleepDuration =
      some (if is_new m last then max ((c : ℚ) - 1) 0 else 1 / 2) := by
  rcases le_or_lt m last with hle | hlt
  · have hb : is_new m last = false := by
      simp only [is_new, decide_eq_false_iff_not]
      omega
    rw [pollStep_stale c last d true m hm hle, hb]
    simp [sleepDuration]
  · have hb : is_new m last = true := by
      simp only [is_new, decide_eq_true_eq]
      omega
    rw [pollStep_fresh_ok c last d m hm hlt, hb]
    simp [sleepDuration]

theorem C8_witness :
    (pollStep 60 0 ⟨[("last_updated", 3)]⟩ true).sleepArg.map sleepDuration =
      some (if is_new 3 0 then max ((60 : ℚ) - 1) 0 else 1 / 2) :=
  C8_dual_sleep_policy 60 0 3 ⟨[("last_updated", 3)]⟩ rfl

/-- C9 counterexample: constructing a stream configuration with the negative
cooldown -1 raises nothing and is not rejected: construction succeeds and
stores -1 unchanged, contradicting the claim that a negative cooldown
aborts startup with a ConfigError. -/
theorem C9_counterexample :
    StreamParams.make "alpha" "url" (-1) = ⟨"alpha", "url", -1⟩ ∧ (-1 : Int) < 0 := by
  decide

/-- C9 (amended): construction performs no validation beyond the zero
rewrite: a configuration with a negative cooldown is accepted and stored
unchanged, so no malformed-configuration error exists at startup. -/
theorem C9_negative_cooldown_accepted (n u : String) (c : Int) (h : c < 0) :
    StreamParams.make n u c = ⟨n, u, c⟩ := by
  have hne : c ≠ 0 := by omega
  simp [StreamParams.make, hne]

theorem C9_witness : StreamParams.make "bravo" "url" (-3) = ⟨"bravo", "url", -3⟩ :=
  C9_negative_cooldown_accepted "bravo" "url" (-3) (by decide)

/-- C10: when a payload carries both marker keys with different values, the
alternate `lastUpdated` value overwrites the canonical field
unconditionally: extraction returns the alternate's value, not the
canonical one, and the snapshot persisted for a fresh such payload is the
normalized body in which the canonical field holds the injected alternate
value. -/
theorem C10_alternate_overwrites_canonical (a b c last : Int)
    (hab : a ≠ b) (hnew : last < b) :
    extract_marker ⟨[("last_updated", a), ("lastUpdated", b)]⟩ = some b ∧
    extract_marker ⟨[("last_updated", a), ("lastUpdated", b)]⟩ ≠ some a ∧
    (pollStep c last ⟨[("last_updated", a), ("lastUpdated", b)]⟩ true).persisted =
      [(b, ⟨[("last_updated", b), ("lastUpdated", b)]⟩)] := by
  have hx : extract_marker ⟨[("last_updated", a), ("lastUpdated", b)]⟩ = some b := rfl
  refine ⟨hx, ?_, ?_⟩
  · rw [hx]
    intro hba
    exact hab (Option.some_injective Int hba).symm
  · rw [pollStep_fresh_ok c last ⟨[("last_updated", a), ("lastUpdated", b)]⟩ b hx hnew]
    rfl

theorem C10_witness :
    extract_marker ⟨[("last_updated", 1), ("lastUpdated", 2)]⟩ = some 2 ∧
    extract_marker ⟨[("last_updated", 1), ("lastUpdated", 2)]⟩ ≠ some 1 ∧
    (pollStep 60 0 ⟨[("last_updated", 1), ("lastUpdated", 2)]⟩ true).persisted =
      [(2, ⟨[("last_updated", 2), ("lastUpdated", 2)]⟩)] :=
  C10_alternate_overwrites_canonical 1 2 60 0 (by decide) (by decide)
